import Mathlib

/-!
Verification of `src/modules/commands/command.js` from the discord-tickets
bot: the `Command` base class.  We shallowly embed the JavaScript semantics
the file relies on (dynamic values, `typeof`, truthiness, property access on
`null`) and model every observable effect of the constructor and of the
three response helpers (`deferResponse`, `sendResponse`, `editResponse`) as
an explicit trace of events / HTTP requests.
-/

namespace Command

mutual

/-- A dynamically typed JavaScript value, as far as this file needs it:
`null`, `undefined`, booleans, integers, strings and plain objects
(association lists of fields). -/
inductive JSVal where
  | vnull
  | vundefined
  | vbool (b : Bool)
  | vnum (n : Int)
  | vstr (s : String)
  | vobj (fields : JSFields)
deriving DecidableEq

/-- The field list of a plain JavaScript object. -/
inductive JSFields where
  | nil
  | cons (key : String) (val : JSVal) (rest : JSFields)
deriving DecidableEq

end

/-- `typeof` as JavaScript defines it; crucially `typeof null = "object"`. -/
def jsTypeof : JSVal → String
  | .vnull => "object"
  | .vundefined => "undefined"
  | .vbool _ => "boolean"
  | .vnum _ => "number"
  | .vstr _ => "string"
  | .vobj _ => "object"

/-- JavaScript truthiness (`if (x)`): `null`, `undefined`, `false`, `0` and
the empty string are falsy; objects are always truthy. -/
def truthy : JSVal → Bool
  | .vnull => false
  | .vundefined => false
  | .vbool b => b
  | .vnum n => decide (n ≠ 0)
  | .vstr s => decide (s ≠ "")
  | .vobj _ => true

/-- Errors thrown in or through this file: `TypeError`s raised by the
constructor or by property access, and opaque errors thrown by the
external collaborators (`manager.check` / `manager.register`). -/
inductive JSError where
  | typeError (msg : String)
  | external (id : Nat)
deriving DecidableEq

/-- Field lookup in an object's field list (first match; absent fields read
as `undefined`, as in JavaScript). -/
def lookupField : JSFields → String → JSVal
  | .nil, _ => .vundefined
  | .cons k v rest, key => if k = key then v else lookupField rest key

/-- JavaScript property read `x.k`: throws a `TypeError` on `null` and
`undefined`, reads the field on objects, and yields `undefined` on boxed
primitives. -/
def getField : JSVal → String → Except JSError JSVal
  | .vnull, k =>
      .error (.typeError ("Cannot read properties of null (reading " ++ k ++ ")"))
  | .vundefined, k =>
      .error (.typeError ("Cannot read properties of undefined (reading " ++ k ++ ")"))
  | .vobj fs, k => .ok (lookupField fs k)
  | _, _ => .ok .vundefined

/-- Strict (`===` / `Array.prototype.includes`) equality restricted to the
primitive values appearing in plugin command lists; two object values are
never identified (distinct object references are never `===`). -/
def jsStrictEq : JSVal → JSVal → Bool
  | .vnull, .vnull => true
  | .vundefined, .vundefined => true
  | .vbool a, .vbool b => a == b
  | .vnum a, .vnum b => a == b
  | .vstr a, .vstr b => a == b
  | _, _ => false

/-- String conversion used by the template literals in the constructor's
log line. -/
def jsToString : JSVal → String
  | .vnull => "null"
  | .vundefined => "undefined"
  | .vbool b => if b then "true" else "false"
  | .vnum n => toString n
  | .vstr s => s
  | .vobj _ => "[object Object]"

/-- A plugin record, as the constructor's reverse lookup sees it:
`p.commands` may be absent (`none`, matching the `?.` optional chaining) or
a list of declared command-name values. -/
structure Plugin where
  ident : Nat
  commands : Option (List JSVal)
deriving DecidableEq

/-- The predicate of the reverse plugin lookup,
`p => p.commands?.includes(this.name)`: with optional chaining an absent
`commands` yields `undefined`, which is falsy. -/
def pluginDeclares (name : JSVal) (p : Plugin) : Bool :=
  match p.commands with
  | none => false
  | some cs => cs.any (fun v => jsStrictEq v name)

/-- Behaviour of the external collaborators reached through the client
handle: the plugin index (`client.plugins.plugins`), and whether
`manager.check` / `manager.register` throw (`some e`) or succeed
(`none`). -/
structure Collaborators where
  plugins : List Plugin
  checkResult : Option JSError
  registerResult : Option JSError
deriving DecidableEq

/-- One observable side effect of the constructor, in the order it is
performed. -/
inductive Event where
  | pluginLookup
  | managerCheck
  | managerRegister
  | logError (e : JSError)
  | apiPostCommands (data : JSVal)
  | logCommands (msg : String)
deriving DecidableEq

/-- The fields the constructor stores on the instance.  `plugin = none`
means the `this.plugin` field was never assigned; `plugin = some r` means
it was assigned the result `r` of the reverse lookup (which is itself
`none`, i.e. `undefined`, when no plugin matched). -/
structure CommandState where
  name : JSVal
  description : JSVal
  staff_only : JSVal
  permissions : JSVal
  options : JSVal
  internal : JSVal
  plugin : Option (Option Plugin)
deriving DecidableEq

/-- The `Command` constructor, translated from
`src/modules/commands/command.js`.  It returns the outcome (the thrown
error, or the constructed instance) together with the trace of side
effects performed before returning or throwing:

* `typeof data !== 'object'` throws a `TypeError` (note `typeof null`
  IS `'object'`, so `null` passes this guard);
* the field reads `data.name`, …, `data.internal` (a `TypeError` is
  thrown here when `data` is `null`);
* `if (!this.internal)` the reverse plugin lookup;
* `this.manager.check(data)` — a throw propagates;
* `this.manager.register(this)` — a throw is caught, logged via
  `client.log.error` and the constructor returns early;
* `client.api.applications(...).commands.post({ data })`;
* the `Loaded … command` confirmation log line. -/
def construct (c : Collaborators) (data : JSVal) :
    Except JSError CommandState × List Event :=
  if jsTypeof data ≠ "object" then
    (.error (.typeError ("Expected type of data to be an object, got " ++ jsTypeof data)), [])
  else
    match getField data "name" with
    | .error e => (.error e, [])
    | .ok name =>
    match getField data "description" with
    | .error e => (.error e, [])
    | .ok description =>
    match getField data "staff_only" with
    | .error e => (.error e, [])
    | .ok staff_only =>
    match getField data "permissions" with
    | .error e => (.error e, [])
    | .ok permissions =>
    match getField data "options" with
    | .error e => (.error e, [])
    | .ok options =>
    match getField data "internal" with
    | .error e => (.error e, [])
    | .ok internal =>
      let pluginField : Option (Option Plugin) :=
        if truthy internal then none
        else some (c.plugins.find? (pluginDeclares name))
      let preTrace : List Event :=
        if truthy internal then [] else [.pluginLookup]
      let st : CommandState :=
        { name := name, description := description, staff_only := staff_only,
          permissions := permissions, options := options, internal := internal,
          plugin := pluginField }
      match c.checkResult with
      | some e => (.error e, preTrace ++ [.managerCheck])
      | none =>
        match c.registerResult with
        | some e =>
            (.ok st, preTrace ++ [.managerCheck, .managerRegister, .logError e])
        | none =>
            (.ok st,
             preTrace ++
               [.managerCheck, .managerRegister, .apiPostCommands data,
                .logCommands ("Loaded " ++ (if truthy internal then "internal " else "")
                  ++ "\"" ++ jsToString name ++ "\" command")])

/-- The parts of an `Interaction` object that the response helpers read:
`interaction.id`, `interaction.token` and `interaction.channel_id`, all
opaque pass-through values. -/
structure Interaction where
  id : JSVal
  token : JSVal
  channel_id : JSVal
deriving DecidableEq

/-- Modelled from the spec: the platform's ephemeral bit, an external
contract of the remote platform (1 <<< 6); its exact value is not fixed by
the repository's own files. -/
def ephemeralBit : Nat := 64

/-- Modelled from the spec: the external `flags` helper from
`utils/discord` (not under the provided sources), which maps the boolean
`secret` to a bit-flag value that carries the ephemeral bit exactly when
`secret` is true. -/
def flags (secret : Bool) : Nat := if secret then ephemeralBit else 0

/-- Modelled from the spec: the external asynchronous message formatter
`createMessage(client, channel_id, content)` from `utils/discord` (not
under the provided sources), which turns structured content into
platform-shaped payload fields.  The spec leaves its output abstract, so we
model it as a tagged record of its three arguments. -/
def createMessage (client channel_id content : JSVal) : JSVal :=
  .vobj (.cons "client" client
    (.cons "channel_id" channel_id (.cons "content" content .nil)))

/-- The body posted to the interaction-callback endpoint: `type` always,
`flags` always, and at most one of `data` / `content` (a field that the
source's object literal omits is `none`). -/
structure CallbackPayload where
  type : Nat
  flags : Nat
  data : Option JSVal
  content : Option JSVal
deriving DecidableEq

/-- The body of the `messages.patch` request: at most one of `embeds` /
`content`, and a `flags` slot that the source never populates. -/
structure PatchBody where
  embeds : Option JSVal
  content : Option JSVal
  flags : Option Nat
deriving DecidableEq

/-- One outbound HTTP request issued by the response helpers. -/
inductive HttpReq where
  | callbackPost (id token : JSVal) (payload : CallbackPayload)
  | messagesPatch (id token : JSVal) (body : PatchBody)
deriving DecidableEq

/-- `Command.deferResponse`, translated from the source: one POST to
`interactions(id, token).callback` with `{ type: 5, flags: flags(secret) }`. -/
def deferResponse (interaction : Interaction) (secret : Bool) : List HttpReq :=
  [.callbackPost interaction.id interaction.token
    { type := 5, flags := flags secret, data := none, content := none }]

/-- `Command.sendResponse`, translated from the source: if
`typeof content === 'object'` the posted payload carries
`data: await createMessage(client, interaction.channel_id, content)`,
otherwise it carries `content` verbatim; either way `type: 4` and
`flags: flags(secret)`. -/
def sendResponse (client : JSVal) (interaction : Interaction)
    (content : JSVal) (secret : Bool) : List HttpReq :=
  if jsTypeof content = "object" then
    [.callbackPost interaction.id interaction.token
      { type := 4, flags := flags secret,
        data := some (createMessage client interaction.channel_id content),
        content := none }]
  else
    [.callbackPost interaction.id interaction.token
      { type := 4, flags := flags secret, data := none,
        content := some content }]

/-- `Command.editResponse`, translated from the source: a PATCH on
`interactions(id, token).messages` whose body is `{ embeds: content }` when
`typeof content === 'object'` and `{ content }` otherwise; no flags field
is ever included. -/
def editResponse (interaction : Interaction) (content : JSVal) : List HttpReq :=
  if jsTypeof content = "object" then
    [.messagesPatch interaction.id interaction.token
      { embeds := some content, content := none, flags := none }]
  else
    [.messagesPatch interaction.id interaction.token
      { embeds := none, content := some content, flags := none }]

/-- `true` exactly on object values (`vobj`); note this is NOT
`typeof x === 'object'`, which is additionally true on `null`. -/
def isObj : JSVal → Bool
  | .vobj _ => true
  | _ => false

/-- Recognises error-log events (`client.log.error`). -/
def isLogError : Event → Bool
  | .logError _ => true
  | _ => false

/-- Recognises the network publish of the command schema
(`client.api.applications(...).commands.post`). -/
def isApiPost : Event → Bool
  | .apiPostCommands _ => true
  | _ => false

/-- The confirmation log line
`` `Loaded ${internal}"${this.name}" command` ``. -/
def loadedMessage (f : JSFields) : String :=
  "Loaded " ++ (if truthy (lookupField f "internal") then "internal " else "")
    ++ "\"" ++ jsToString (lookupField f "name") ++ "\" command"

/-- The instance fields the constructor stores for an object-shaped
descriptor with field list `f`. -/
def mkState (c : Collaborators) (f : JSFields) : CommandState :=
  { name := lookupField f "name"
    description := lookupField f "description"
    staff_only := lookupField f "staff_only"
    permissions := lookupField f "permissions"
    options := lookupField f "options"
    internal := lookupField f "internal"
    plugin :=
      if truthy (lookupField f "internal") then none
      else some (c.plugins.find? (pluginDeclares (lookupField f "name"))) }

/-- The side-effect sequence the spec prescribes for an object-shaped
descriptor, written as the spec's ordered list (section 4.1): plugin
resolution when not internal, then registry validation, then — only if
validation succeeded — registration, then either the single error log (on
registration failure) or the network publish followed by the confirmation
log line. -/
def specTrace (c : Collaborators) (f : JSFields) : List Event :=
  (if truthy (lookupField f "internal") then [] else [.pluginLookup]) ++
  [.managerCheck] ++
  (match c.checkResult with
   | some _ => []
   | none =>
     [.managerRegister] ++
     (match c.registerResult with
      | some e => [.logError e]
      | none => [.apiPostCommands (.vobj f), .logCommands (loadedMessage f)]))

/-- The outcome the spec prescribes: a validation failure propagates, and
otherwise the fully initialised instance is produced. -/
def specResult (c : Collaborators) (f : JSFields) : Except JSError CommandState :=
  match c.checkResult with
  | some e => .error e
  | none => .ok (mkState c f)

/-- The translated constructor, run on an object-shaped descriptor, agrees
exactly with the spec-side result and ordered trace. -/
lemma construct_vobj (c : Collaborators) (f : JSFields) :
    construct c (.vobj f) = (specResult c f, specTrace c f) := by
  cases hc : c.checkResult <;> cases hr : c.registerResult <;>
    cases hi : truthy (lookupField f "internal") <;>
      simp [construct, mkState, specTrace, specResult, loadedMessage,
        getField, jsTypeof, hc, hr, hi]

/-- A concrete collaborator environment where both registry calls
succeed. -/
def demoCollab : Collaborators :=
  { plugins := [], checkResult := none, registerResult := none }

/-- A concrete collaborator environment whose `manager.register` throws. -/
def demoRegisterFail : Collaborators :=
  { plugins := [], checkResult := none, registerResult := some (.external 7) }

/-- A concrete object-shaped descriptor. -/
def demoFields : JSFields :=
  .cons "name" (.vstr "tickets")
    (.cons "description" (.vstr "Manage tickets")
      (.cons "internal" (.vbool true) .nil))

/-- A concrete interaction context. -/
def demoInteraction : Interaction :=
  { id := .vstr "9001", token := .vstr "tok", channel_id := .vstr "42" }

/-- A concrete structured content value (a rich-embed object). -/
def demoEmbed : JSFields :=
  .cons "embed" (.vobj (.cons "title" (.vstr "hi") .nil)) .nil

/-- C1: for every non-object descriptor argument (`null`, a string such as
`"x"`, a number such as `42`, …) the `Command` constructor throws a
`TypeError` before any registry interaction (`manager.check` /
`manager.register`) and before any network call. -/
theorem nonObjectDescriptorThrowsEarly (c : Collaborators) (data : JSVal)
    (h : isObj data = false) :
    (∃ msg, (construct c data).1 = .error (.typeError msg)) ∧
    Event.managerCheck ∉ (construct c data).2 ∧
    Event.managerRegister ∉ (construct c data).2 ∧
    ∀ d, Event.apiPostCommands d ∉ (construct c data).2 := by
  have key : (∃ msg, (construct c data).1 = Except.error (.typeError msg)) ∧
      (construct c data).2 = [] := by
    cases data with
    | vobj f => simp [isObj] at h
    | vnull => exact ⟨⟨_, rfl⟩, rfl⟩
    | vundefined => exact ⟨⟨_, rfl⟩, rfl⟩
    | vbool b => exact ⟨⟨_, rfl⟩, rfl⟩
    | vnum n => exact ⟨⟨_, rfl⟩, rfl⟩
    | vstr s => exact ⟨⟨_, rfl⟩, rfl⟩
  exact ⟨key.1, by simp [key.2], by simp [key.2], fun d => by simp [key.2]⟩

theorem nonObjectDescriptorThrowsEarly_w :
    isObj JSVal.vnull = false ∧
    ((∃ msg, (construct demoCollab JSVal.vnull).1 = .error (.typeError msg)) ∧
     Event.managerCheck ∉ (construct demoCollab JSVal.vnull).2 ∧
     Event.managerRegister ∉ (construct demoCollab JSVal.vnull).2 ∧
     ∀ d, Event.apiPostCommands d ∉ (construct demoCollab JSVal.vnull).2) :=
  ⟨rfl, nonObjectDescriptorThrowsEarly demoCollab JSVal.vnull rfl⟩

/-- C2: if `manager.register` throws during construction, the constructor
still completes (no error propagates, the instance is produced) and the
thrown error is passed to `client.log.error` exactly once. -/
theorem registerFailureIsLoggedNotThrown (c : Collaborators) (f : JSFields)
    (e : JSError) (hc : c.checkResult = none) (hr : c.registerResult = some e) :
    (∃ st, (construct c (.vobj f)).1 = .ok st) ∧
    ((construct c (.vobj f)).2.filter isLogError) = [Event.logError e] := by
  rw [construct_vobj]
  refine ⟨⟨mkState c f, by simp [specResult, hc]⟩, ?_⟩
  cases hi : truthy (lookupField f "internal") <;>
    simp [specTrace, hc, hr, hi, isLogError]

theorem registerFailureIsLoggedNotThrown_w :
    demoRegisterFail.checkResult = none ∧
    demoRegisterFail.registerResult = some (.external 7) ∧
    ((∃ st, (construct demoRegisterFail (.vobj demoFields)).1 = .ok st) ∧
     ((construct demoRegisterFail (.vobj demoFields)).2.filter isLogError) =
       [Event.logError (.external 7)]) :=
  ⟨rfl, rfl,
   registerFailureIsLoggedNotThrown demoRegisterFail demoFields (.external 7) rfl rfl⟩

/-- C3: for every object-shaped descriptor the constructor's side effects
happen in the spec's order — plugin resolution (only when not internal),
then `manager.check`, then `manager.register`, then the network publish,
then the confirmation log line, no step before an earlier one — and the
outcome is exactly the spec's: a `manager.check` failure propagates
uncaught, otherwise the instance is produced. -/
theorem constructorEffectsInSpecOrder (c : Collaborators) (f : JSFields) :
    (construct c (.vobj f)).2 = specTrace c f ∧
    (construct c (.vobj f)).1 = specResult c f := by
  rw [construct_vobj]
  exact ⟨rfl, rfl⟩

/-- C4: when both `manager.check` and `manager.register` succeed on an
object-shaped descriptor, construction succeeds, `manager.register` is
called exactly once, and exactly one network call publishes the descriptor
to the application-commands endpoint. -/
theorem successfulConstructionPublishesOnce (c : Collaborators)
    (f : JSFields) (hc : c.checkResult = none) (hr : c.registerResult = none) :
    (∃ st, (construct c (.vobj f)).1 = .ok st) ∧
    (construct c (.vobj f)).2.count Event.managerRegister = 1 ∧
    ((construct c (.vobj f)).2.filter isApiPost) =
      [Event.apiPostCommands (.vobj f)] := by
  rw [construct_vobj]
  refine ⟨⟨mkState c f, by simp [specResult, hc]⟩, ?_, ?_⟩ <;>
    cases hi : truthy (lookupField f "internal") <;>
      simp [specTrace, hc, hr, hi, isApiPost, List.count_cons]

theorem successfulConstructionPublishesOnce_w :
    demoCollab.checkResult = none ∧
    demoCollab.registerResult = none ∧
    ((∃ st, (construct demoCollab (.vobj demoFields)).1 = .ok st) ∧
     (construct demoCollab (.vobj demoFields)).2.count Event.managerRegister = 1 ∧
     ((construct demoCollab (.vobj demoFields)).2.filter isApiPost) =
       [Event.apiPostCommands (.vobj demoFields)]) :=
  ⟨rfl, rfl, successfulConstructionPublishesOnce demoCollab demoFields rfl rfl⟩

/-- C5: `sendResponse` with a non-object content and `secret = false` posts
one type-4 payload whose `content` field is that value verbatim and which
has no `data` field; with an object content and `secret = true` it posts
one type-4 payload whose `data` field is the message formatter's output on
that content and whose flags value is the ephemeral flag. -/
theorem sendResponseContentShapes (client : JSVal) (i : Interaction)
    (contentPlain contentRich : JSVal) (f : JSFields)
    (hplain : jsTypeof contentPlain ≠ "object") (hrich : contentRich = .vobj f) :
    sendResponse client i contentPlain false =
      [.callbackPost i.id i.token
        { type := 4, flags := flags false, data := none,
          content := some contentPlain }] ∧
    sendResponse client i contentRich true =
      [.callbackPost i.id i.token
        { type := 4, flags := ephemeralBit,
          data := some (createMessage client i.channel_id contentRich),
          content := none }] := by
  subst hrich
  exact ⟨by simp [sendResponse, hplain], by simp [sendResponse, jsTypeof, flags]⟩

theorem sendResponseContentShapes_w :
    jsTypeof (JSVal.vstr "hello") ≠ "object" ∧
    JSVal.vobj demoEmbed = JSVal.vobj demoEmbed ∧
    (sendResponse (.vstr "client") demoInteraction (.vstr "hello") false =
      [.callbackPost demoInteraction.id demoInteraction.token
        { type := 4, flags := flags false, data := none,
          content := some (.vstr "hello") }] ∧
     sendResponse (.vstr "client") demoInteraction (.vobj demoEmbed) true =
      [.callbackPost demoInteraction.id demoInteraction.token
        { type := 4, flags := ephemeralBit,
          data := some (createMessage (.vstr "client")
            demoInteraction.channel_id (.vobj demoEmbed)),
          content := none }]) :=
  ⟨by decide, rfl,
   sendResponseContentShapes (.vstr "client") demoInteraction (.vstr "hello")
     (.vobj demoEmbed) demoEmbed (by decide) rfl⟩

/-- C6: `editResponse` with an object content patches with an `embeds`
field and no `content` field; with a non-object content it patches with a
`content` field and no `embeds` field; never both, and no patch ever
carries an ephemeral flag. -/
theorem editResponsePatchShapes (i : Interaction)
    (contentRich contentPlain : JSVal) (f : JSFields)
    (hrich : contentRich = .vobj f) (hplain : jsTypeof contentPlain ≠ "object") :
    editResponse i contentRich =
      [.messagesPatch i.id i.token
        { embeds := some contentRich, content := none, flags := none }] ∧
    editResponse i contentPlain =
      [.messagesPatch i.id i.token
        { embeds := none, content := some contentPlain, flags := none }] ∧
    ∀ content idv tok b, HttpReq.messagesPatch idv tok b ∈ editResponse i content →
      (b.embeds = none ∨ b.content = none) ∧ b.flags = none := by
  subst hrich
  refine ⟨by simp [editResponse, jsTypeof], by simp [editResponse, hplain], ?_⟩
  intro content idv tok b hb
  by_cases hobj : jsTypeof content = "object"
  · simp [editResponse, hobj] at hb
    rcases hb with ⟨-, -, rfl⟩
    exact ⟨Or.inr rfl, rfl⟩
  · simp [editResponse, hobj] at hb
    rcases hb with ⟨-, -, rfl⟩
    exact ⟨Or.inl rfl, rfl⟩

theorem editResponsePatchShapes_w :
    JSVal.vobj demoEmbed = JSVal.vobj demoEmbed ∧
    jsTypeof (JSVal.vstr "text") ≠ "object" ∧
    (editResponse demoInteraction (.vobj demoEmbed) =
      [.messagesPatch demoInteraction.id demoInteraction.token
        { embeds := some (.vobj demoEmbed), content := none, flags := none }] ∧
     editResponse demoInteraction (.vstr "text") =
      [.messagesPatch demoInteraction.id demoInteraction.token
        { embeds := none, content := some (.vstr "text"), flags := none }] ∧
     ∀ content idv tok b,
       HttpReq.messagesPatch idv tok b ∈ editResponse demoInteraction content →
         (b.embeds = none ∨ b.content = none) ∧ b.flags = none) :=
  ⟨rfl, by decide,
   editResponsePatchShapes demoInteraction (.vobj demoEmbed) (.vstr "text")
     demoEmbed rfl (by decide)⟩

/-- C7: `deferResponse` posts exactly one callback payload, of type 5,
whose flags value carries the ephemeral bit exactly when `secret` is true
and not when it is false. -/
theorem deferResponseTypeFiveEphemeral (i : Interaction) (secret : Bool) :
    deferResponse i secret =
      [.callbackPost i.id i.token
        { type := 5, flags := flags secret, data := none, content := none }] ∧
    (flags secret).testBit 6 = secret ∧ ephemeralBit = 2 ^ 6 := by
  refine ⟨rfl, ?_, rfl⟩
  cases secret <;> decide

/-- C10: `null` content takes the structured branch in both helpers, since
in JavaScript `typeof null` is `'object'`: `sendResponse` posts the
formatter's output on `null` as the `data` field with no plain `content`
field, and `editResponse` patches with `embeds: null` and no `content`
field. -/
theorem nullContentTakesStructuredBranch (client : JSVal) (i : Interaction)
    (secret : Bool) :
    sendResponse client i .vnull secret =
      [.callbackPost i.id i.token
        { type := 4, flags := flags secret,
          data := some (createMessage client i.channel_id .vnull),
          content := none }] ∧
    editResponse i .vnull =
      [.messagesPatch i.id i.token
        { embeds := some .vnull, content := none, flags := none }] :=
  ⟨rfl, rfl⟩

/-- C8: for every descriptor the constructor accepts, the `plugin` field is
assigned only when the `internal` flag is falsy, and then it holds the
result of searching the plugin index for a plugin whose declared command
list contains the descriptor's name (any plugin found comes from the index
and does declare the name); when `internal` is truthy the field is never
assigned. -/
theorem pluginFieldOnlyForNonInternal (c : Collaborators) (f : JSFields)
    (st : CommandState) (h : (construct c (.vobj f)).1 = .ok st) :
    (truthy st.internal = true → st.plugin = none) ∧
    (truthy st.internal = false →
      st.plugin = some (c.plugins.find? (pluginDeclares st.name)) ∧
      ∀ p, c.plugins.find? (pluginDeclares st.name) = some p →
        pluginDeclares st.name p = true ∧ p ∈ c.plugins) := by
  rw [construct_vobj] at h
  unfold specResult at h
  cases hc : c.checkResult with
  | some e => rw [hc] at h; exact Except.noConfusion h
  | none =>
    rw [hc] at h
    have hst : mkState c f = st := Except.ok.inj h
    subst hst
    cases hi : truthy (lookupField f "internal") with
    | true =>
      refine ⟨fun _ => by simp [mkState, hi], fun hfalse => ?_⟩
      rw [show (mkState c f).internal = lookupField f "internal" from rfl, hi] at hfalse
      exact Bool.noConfusion hfalse
    | false =>
      refine ⟨fun htrue => ?_, fun _ => ?_⟩
      · rw [show (mkState c f).internal = lookupField f "internal" from rfl, hi] at htrue
        exact Bool.noConfusion htrue
      · refine ⟨by simp [mkState, hi], fun p hp => ?_⟩
        exact ⟨List.find?_some hp, List.mem_of_find?_eq_some hp⟩

theorem pluginFieldOnlyForNonInternal_w :
    (construct demoCollab (.vobj demoFields)).1 =
      .ok (mkState demoCollab demoFields) ∧
    ((truthy (mkState demoCollab demoFields).internal = true →
        (mkState demoCollab demoFields).plugin = none) ∧
     (truthy (mkState demoCollab demoFields).internal = false →
        (mkState demoCollab demoFields).plugin =
          some (demoCollab.plugins.find?
            (pluginDeclares (mkState demoCollab demoFields).name)) ∧
        ∀ p, demoCollab.plugins.find?
            (pluginDeclares (mkState demoCollab demoFields).name) = some p →
          pluginDeclares (mkState demoCollab demoFields).name p = true ∧
          p ∈ demoCollab.plugins)) :=
  ⟨rfl, pluginFieldOnlyForNonInternal demoCollab demoFields _ rfl⟩

/-- C9: when `manager.register` throws, the constructor returns early: the
network publish and the `Loaded … command` confirmation line never happen,
and the trace ends at the register call followed by the single error
log. -/
theorem registerFailureSkipsPublishAndLog (c : Collaborators) (f : JSFields)
    (e : JSError) (hc : c.checkResult = none) (hr : c.registerResult = some e) :
    (∀ d, Event.apiPostCommands d ∉ (construct c (.vobj f)).2) ∧
    (∀ m, Event.logCommands m ∉ (construct c (.vobj f)).2) ∧
    ∃ pre, (construct c (.vobj f)).2 =
      pre ++ [Event.managerRegister, Event.logError e] := by
  rw [construct_vobj]
  refine ⟨?_, ?_, ?_⟩
  · intro d
    cases hi : truthy (lookupField f "internal") <;> simp [specTrace, hc, hr, hi]
  · intro m
    cases hi : truthy (lookupField f "internal") <;> simp [specTrace, hc, hr, hi]
  · cases hi : truthy (lookupField f "internal")
    · exact ⟨[.pluginLookup, .managerCheck], by simp [specTrace, hc, hr, hi]⟩
    · exact ⟨[.managerCheck], by simp [specTrace, hc, hr, hi]⟩

theorem registerFailureSkipsPublishAndLog_w :
    demoRegisterFail.checkResult = none ∧
    demoRegisterFail.registerResult = some (.external 7) ∧
    ((∀ d, Event.apiPostCommands d ∉
        (construct demoRegisterFail (.vobj demoFields)).2) ∧
     (∀ m, Event.logCommands m ∉
        (construct demoRegisterFail (.vobj demoFields)).2) ∧
     ∃ pre, (construct demoRegisterFail (.vobj demoFields)).2 =
       pre ++ [Event.managerRegister, Event.logError (.external 7)]) :=
  ⟨rfl, rfl,
   registerFailureSkipsPublishAndLog demoRegisterFail demoFields
     (.external 7) rfl rfl⟩

end Command
